import Mathlib

/-!
Shallow embedding of `src/Bistr.py`: a resumable batch source-code analysis
pipeline that drives an external completion service over an ordered list of
files, threading an opaque context token, persisting per-directory progress
into a shared state file, estimating remaining time, and rendering a summary.

External effects are modeled as explicit oracle parameters:
the HTTP service (`askOllama`) receives the `ServiceResponse` the server would
send; Python's `json.loads` is a parameter `jsonLoads : String → Option
JsonValue` (`none` models a parse exception); user input lines and per-call
wall-clock durations come in as lists; the on-disk state file is an
association list passed in and returned.  Everything else follows the Python
source line by line.
-/

namespace Bistr

/-- The two fields that the code reads out of a parsed JSON object with
`response_data.get("relevance", 0)` and `response_data.get("reason", ...)`
(Bistr.py lines 145-146); `none` models an absent key.  The relevance value is
modeled as an integer when present; the code never constrains it. -/
structure JsonFields where
  relevance : Option Int
  reason : Option String
deriving DecidableEq, Repr

/-- Result of a successful Python `json.loads` on a response text: either a
JSON object (the only shape the code can consume), or some other JSON value
(number, string, array, boolean, null), on which the later attribute access
`response_data.get` raises an uncaught `AttributeError`. -/
inductive JsonValue where
  | obj (fields : JsonFields)
  | nonObject
deriving DecidableEq, Repr

/-- One record appended to the module-level `analyzed_files` list
(Bistr.py lines 143-147). -/
structure AnalysisRecord where
  file : String
  relevance : Int
  reason : String
deriving DecidableEq, Repr

/-- What the external service returns for one HTTP call: the transport status
code and, read off the body, the `response` text and the new `context` token
list (Bistr.py lines 48-51). -/
structure ServiceResponse where
  status : Nat
  text : String
  context : List Int
deriving DecidableEq, Repr

/-- The dictionary `askOllama` returns on success (Bistr.py line 51). -/
structure OllamaResult where
  text : String
  context : List Int
deriving DecidableEq, Repr

/-- Model of `askOllama` (Bistr.py lines 38-54).  A status of 200 yields the
text/context pair; any other status prints a diagnostic and calls `exit(1)`,
modeled as `Except.error 1`.  The outcome is a function of the single
response: there is no retry and no backoff at this layer. -/
def askOllama (resp : ServiceResponse) : Except Nat OllamaResult :=
  if resp.status = 200 then
    Except.ok { text := resp.text, context := resp.context }
  else
    Except.error 1

/-- Model of `format_time` (Bistr.py lines 56-60).  Python floor-division and
modulo on the (nonnegative-seconds) float, then `int(...)`, amount to the
integer floors below; durations are modeled as exact rationals. -/
def format_time (seconds : ℚ) : String :=
  let hours : ℤ := ⌊seconds / 3600⌋
  let minutes : ℤ := ⌊(seconds - 3600 * ((⌊seconds / 3600⌋ : ℤ) : ℚ)) / 60⌋
  let secs : ℤ := ⌊seconds - 60 * ((⌊seconds / 60⌋ : ℤ) : ℚ)⌋
  s!"{hours}h {minutes}m {secs}s"

/-- Outcome of one call of `analyze_file_with_context` (Bistr.py lines
114-153): the process can have exited inside `askOllama`; the `.get` attribute
access can crash on a JSON value that is not an object; `json.loads` can raise,
after which the function returns `None` and the caller retries; or the call
succeeds and returns the new context. -/
inductive AnalyzeOutcome where
  | exited (code : Nat)
  | crashed
  | retry
  | advanced (newContext : List Int)
deriving DecidableEq, Repr

/-- Model of `analyze_file_with_context` (Bistr.py lines 114-153).  `resp` is
what the service returns for this single call and `duration` the measured
elapsed time appended to `time_differences`.  The `research` argument only
changes the prompt text sent to the service (Bistr.py lines 120-130), so it
does not influence the result here; it is kept as a parameter to make the mode
explicit.  Note the `try` only wraps `json.loads`; the `.get` calls are
outside it, and the `if response:` test is always true because `askOllama`
returns a non-empty dict whenever it returns at all (its else branch at lines
151-153 is unreachable).  Returns the outcome together with the updated
module-level `analyzed_files` and `time_differences` lists. -/
def analyze_file_with_context (jsonLoads : String → Option JsonValue)
    (file_path : String) (research : Option String)
    (resp : ServiceResponse) (duration : ℚ)
    (analyzed_files : List AnalysisRecord) (time_differences : List ℚ) :
    AnalyzeOutcome × List AnalysisRecord × List ℚ :=
  match askOllama resp with
  | Except.error c => (AnalyzeOutcome.exited c, analyzed_files, time_differences)
  | Except.ok response =>
    let time_differences := time_differences ++ [duration]
    match jsonLoads response.text with
    | none => (AnalyzeOutcome.retry, analyzed_files, time_differences)
    | some JsonValue.nonObject =>
      (AnalyzeOutcome.crashed, analyzed_files, time_differences)
    | some (JsonValue.obj fields) =>
      (AnalyzeOutcome.advanced response.context,
       analyzed_files ++
         [{ file := file_path,
            relevance := fields.relevance.getD 0,
            reason := fields.reason.getD "No reason provided" }],
       time_differences)

/-- Result of the inner `while result == None` retry loop for one file. -/
inductive RetryOutcome where
  | exited (code : Nat)
  | crashed
  | diverges
  | done (newContext : List Int) (analyzed : List AnalysisRecord) (times : List ℚ)
deriving DecidableEq, Repr

/-- Model of the `while result == None` retry loop (Bistr.py lines 170-172):
it keeps calling `analyze_file_with_context` on the same file until a call
advances the context.  The scheduled per-call results for this file arrive as
a list; exhausting the list models the loop running forever. -/
def analysisRetryLoop (jsonLoads : String → Option JsonValue)
    (file_path : String) (research : Option String) :
    List (ServiceResponse × ℚ) → List AnalysisRecord → List ℚ → RetryOutcome
  | [], _, _ => RetryOutcome.diverges
  | (resp, d) :: rest, analyzed, times =>
    match analyze_file_with_context jsonLoads file_path research resp d analyzed times with
    | (AnalyzeOutcome.exited c, _, _) => RetryOutcome.exited c
    | (AnalyzeOutcome.crashed, _, _) => RetryOutcome.crashed
    | (AnalyzeOutcome.advanced ctx, analyzed2, times2) =>
      RetryOutcome.done ctx analyzed2 times2
    | (AnalyzeOutcome.retry, analyzed2, times2) =>
      analysisRetryLoop jsonLoads file_path research rest analyzed2 times2

/-- Observable events of one iteration of the batch loop (Bistr.py lines
166-182): the printed progress percentage, the context passed into the calls
for this file, the context the successful call returned, the arguments of the
`save_state` call, and the printed ETA line (`none` models the line
`Pending time estimation`). -/
structure StepTrace where
  file : String
  progressPct : Nat
  contextUsed : List Int
  contextFromService : List Int
  savedPending : List String
  savedContext : List Int
  samples : Nat
  sumDurations : ℚ
  remaining : Nat
  etaPrinted : Option String
deriving DecidableEq, Repr

/-- Result of the whole batch loop. -/
inductive BatchResult where
  | exited (code : Nat)
  | crashed
  | diverges
  | finished (context : List Int) (pending : List String)
      (analyzed : List AnalysisRecord) (times : List ℚ) (traces : List StepTrace)
deriving DecidableEq, Repr

/-- Model of the `for idx, file_path in enumerate(pending_files[:], start=1)`
loop of `build_context_from_directory` (Bistr.py lines 166-182).  The first
list argument is the remainder of the snapshot `pending_files[:]` being
iterated; `pending` is the live `pending_files` list mutated by
`pending_files.remove(file_path)`.  `oracle idx` gives the scheduled per-call
service results for the `idx`-th file.  Faithful to the source, the `context`
variable threaded into the recursive call is NOT updated with the result of
`analyze_file_with_context`: line 172 binds it to `result`, which is never
assigned back to `context`.  The progress print `int((idx / total_files) *
100)` is modeled as exact truncating division.  The ETA print uses
`sum(time_differences) / len(time_differences) * remaining_files`, shown only
once at least 4 durations exist. -/
def batchLoop (jsonLoads : String → Option JsonValue)
    (oracle : Nat → List (ServiceResponse × ℚ)) (research : Option String)
    (total_files : Nat) :
    List String → Nat → List String → List Int → List AnalysisRecord →
    List ℚ → BatchResult
  | [], _, pending, context, analyzed, times =>
    BatchResult.finished context pending analyzed times []
  | file_path :: rest, idx, pending, context, analyzed, times =>
    match analysisRetryLoop jsonLoads file_path research (oracle idx) analyzed times with
    | RetryOutcome.exited c => BatchResult.exited c
    | RetryOutcome.crashed => BatchResult.crashed
    | RetryOutcome.diverges => BatchResult.diverges
    | RetryOutcome.done newContext analyzed2 times2 =>
      match batchLoop jsonLoads oracle research total_files rest (idx + 1)
          (pending.erase file_path) context analyzed2 times2 with
      | BatchResult.finished c p a t trs =>
        BatchResult.finished c p a t
          ({ file := file_path,
             progressPct := (idx * 100) / total_files,
             contextUsed := context,
             contextFromService := newContext,
             savedPending := pending.erase file_path,
             savedContext := context,
             samples := times2.length,
             sumDurations := times2.sum,
             remaining := total_files - idx,
             etaPrinted :=
               if 4 ≤ times2.length then
                 some (format_time ((times2.sum / (times2.length : ℚ)) *
                   ((total_files - idx : Nat) : ℚ)))
               else none } :: trs)
      | r => r

/-- One entry of the persisted state map (Bistr.py lines 28-32). -/
structure SavedState where
  pending_files : List String
  context : List Int
  model : String
deriving DecidableEq, Repr

/-- Model of `build_context_from_directory` (Bistr.py lines 155-184): read
`context` and `pending_files` from the state dict, fix `total_files` at batch
entry, iterate a copy of the pending list while mutating the original, and
finally return the (never updated) `context` variable.  The module-level
`analyzed_files` and `time_differences` lists are empty at process start. -/
def build_context_from_directory (jsonLoads : String → Option JsonValue)
    (oracle : Nat → List (ServiceResponse × ℚ)) (research : Option String)
    (state : SavedState) : BatchResult :=
  batchLoop jsonLoads oracle research state.pending_files.length
    state.pending_files 1 state.pending_files state.context [] []

/-- Python dict assignment `state_data[key] = value`: replace the existing
entry for the key in place, otherwise append a new entry. -/
def dictInsert : List (String × SavedState) → String → SavedState →
    List (String × SavedState)
  | [], key, val => [(key, val)]
  | (k, v) :: rest, key, val =>
    if k = key then (key, val) :: rest else (k, v) :: dictInsert rest key val

/-- Model of `save_state` (Bistr.py lines 22-36): read the whole stored map
(`none` models a missing state file, giving the empty dict), overwrite only
the entry for this target directory, and write the complete merged map
back. -/
def save_state (existingFile : Option (List (String × SavedState)))
    (target_directory : String) (pending_files : List String)
    (context : List Int) (model : String) : List (String × SavedState) :=
  let state_data := existingFile.getD []
  dictInsert state_data target_directory
    { pending_files := pending_files, context := context, model := model }

/-- Model of `load_save_state` (Bistr.py lines 13-20): `none` when the state
file does not exist or has no entry for the target directory. -/
def load_save_state (existingFile : Option (List (String × SavedState)))
    (target_directory : String) : Option SavedState :=
  match existingFile with
  | none => none
  | some state_data => List.lookup target_directory state_data

/-- Outcome of the resume decision in `sourceCodeAnalysis`. -/
inductive DecisionOutcome where
  | hang
  | fatalModelMismatch (saved requested : String)
  | proceed (state : SavedState) (is_resume : Bool)
deriving DecidableEq, Repr

/-- Model of the body of the `while True` prompt loop of `sourceCodeAnalysis`
for the case where a previous state was found (Bistr.py lines 210-226): each
iteration consumes one line of user input; the list elements model the value
of `input(...).strip().lower()`, i.e. the already-normalized choice strings.
An input equal to `"y"` checks the saved model against the requested one and
exits on mismatch; `"n"` rebuilds a fresh state (`freshFiles` stands for
`get_files_list(abs_directory, extensions)`); the empty input sets
`should_resume` to `"y"` and breaks WITHOUT the model check; anything else
loops and prompts again.  Exhausting the input list models the program
blocking at `input()` forever. -/
def resumePromptLoop (st : SavedState) (freshFiles : List String)
    (model : String) : List String → DecisionOutcome
  | [] => DecisionOutcome.hang
  | choice :: rest =>
    if choice = "y" then
      if st.model ≠ model then DecisionOutcome.fatalModelMismatch st.model model
      else DecisionOutcome.proceed st true
    else if choice = "n" then
      DecisionOutcome.proceed
        { pending_files := freshFiles, context := [], model := model } false
    else if choice.length < 1 then
      DecisionOutcome.proceed st true
    else
      resumePromptLoop st freshFiles model rest

/-- Model of the `while True` resume decision (Bistr.py lines 207-227).  When
no prior state was loaded, `if state:` is false, the loop body never reaches a
`break`, and the program spins forever without even consuming input. -/
def resumeDecision (state : Option SavedState) (inputs : List String)
    (freshFiles : List String) (model : String) : DecisionOutcome :=
  match state with
  | none => DecisionOutcome.hang
  | some st => resumePromptLoop st freshFiles model inputs

/-- Overall outcome of `sourceCodeAnalysis` up to the end of the batch loop. -/
inductive ProgramOutcome where
  | promptHang
  | modelMismatchExit (saved requested : String)
  | ranBatch (is_resume : Bool) (startState : SavedState) (result : BatchResult)
deriving DecidableEq, Repr

/-- Model of `sourceCodeAnalysis` (Bistr.py lines 200-229) up to the end of
the batch loop: load the state entry for the canonicalized target key
(`abs_directory` stands for `os.path.abspath(directory)`), run the resume
decision, then run the batch. -/
def sourceCodeAnalysis (jsonLoads : String → Option JsonValue)
    (oracle : Nat → List (ServiceResponse × ℚ))
    (existingFile : Option (List (String × SavedState)))
    (abs_directory : String) (inputs : List String) (freshFiles : List String)
    (model : String) (research : Option String) : ProgramOutcome :=
  match resumeDecision (load_save_state existingFile abs_directory) inputs
      freshFiles model with
  | DecisionOutcome.hang => ProgramOutcome.promptHang
  | DecisionOutcome.fatalModelMismatch a b => ProgramOutcome.modelMismatchExit a b
  | DecisionOutcome.proceed st r =>
    ProgramOutcome.ranBatch r st
      (build_context_from_directory jsonLoads oracle research st)

/-- Traces of a batch result; empty unless the batch finished. -/
def BatchResult.traces : BatchResult → List StepTrace
  | BatchResult.finished _ _ _ _ trs => trs
  | _ => []

/-- Context returned by `build_context_from_directory`; `[]` unless the batch
finished. -/
def BatchResult.finalContext : BatchResult → List Int
  | BatchResult.finished c _ _ _ _ => c
  | _ => []

/-- Whether the batch loop ran to completion. -/
def BatchResult.isFinished : BatchResult → Bool
  | BatchResult.finished _ _ _ _ _ => true
  | _ => false

/-- A concrete stand-in for `json.loads` used in concrete runs: the text
`"ok"` parses as the object with relevance 1 and reason `"r"`; `"big"` parses
as an object with relevance 999 and no reason key; `"num"` parses as a JSON
value that is not an object; anything else fails to parse. -/
def jl0 : String → Option JsonValue := fun s =>
  if s = "ok" then some (JsonValue.obj { relevance := some 1, reason := some "r" })
  else if s = "big" then some (JsonValue.obj { relevance := some 999, reason := none })
  else if s = "num" then some JsonValue.nonObject
  else none

/-- A concrete service schedule: the call for the `idx`-th file succeeds at
once with text `"ok"` and new context `[idx]`, taking 1 second. -/
def oracle1 : Nat → List (ServiceResponse × ℚ) := fun idx =>
  [({ status := 200, text := "ok", context := [(idx : Int)] }, 1)]

/-- A concrete service schedule where each file takes three unparseable calls
before the fourth call succeeds, each call taking 1 second. -/
def oracle4 : Nat → List (ServiceResponse × ℚ) := fun _ =>
  [({ status := 200, text := "no", context := [] }, 1),
   ({ status := 200, text := "no", context := [] }, 1),
   ({ status := 200, text := "no", context := [] }, 1),
   ({ status := 200, text := "ok", context := [5] }, 1)]

/-- Looking up the key just written by `dictInsert` finds the new value. -/
theorem lookup_dictInsert_self (l : List (String × SavedState)) (key : String)
    (val : SavedState) : List.lookup key (dictInsert l key val) = some val := by
  induction l with
  | nil => simp [dictInsert, List.lookup]
  | cons kv rest ih =>
    obtain ⟨k, v⟩ := kv
    by_cases h : k = key
    · subst h
      simp [dictInsert, List.lookup]
    · simp only [dictInsert, if_neg h, List.lookup]
      have : (key == k) = false := by
        simp [Ne.symm h]
      rw [this]
      exact ih

/-- Looking up any other key after `dictInsert` sees the original map. -/
theorem lookup_dictInsert_ne (l : List (String × SavedState)) (key other : String)
    (val : SavedState) (h : other ≠ key) :
    List.lookup other (dictInsert l key val) = List.lookup other l := by
  induction l with
  | nil =>
    have hb : (other == key) = false := by
      simp [h]
    simp [dictInsert, List.lookup, hb]
  | cons kv rest ih =>
    obtain ⟨k, v⟩ := kv
    by_cases hk : k = key
    · subst hk
      simp only [dictInsert, if_pos rfl, List.lookup]
      have : (other == k) = false := by
        simp [h]
      rw [this]
    · simp only [dictInsert, if_neg hk, List.lookup]
      cases hbeq : (other == k) with
      | true => rfl
      | false => exact ih

/-- Invariants of a completed batch run started with the live pending list
equal to the iterated snapshot (as `build_context_from_directory` does): the
returned context is the initial one (never advanced), the steps visit the
snapshot files in order, each step saves the remainder of the snapshot and
the stale initial context, and the printed percentage truncates. -/
theorem batchLoop_run_invariants (jsonLoads : String → Option JsonValue)
    (oracle : Nat → List (ServiceResponse × ℚ)) (research : Option String)
    (total_files : Nat) :
    ∀ (fs : List String) (idx : Nat) (c : List Int) (a : List AnalysisRecord)
      (t : List ℚ) (c2 : List Int) (p2 : List String) (a2 : List AnalysisRecord)
      (t2 : List ℚ) (trs : List StepTrace),
      batchLoop jsonLoads oracle research total_files fs idx fs c a t =
        BatchResult.finished c2 p2 a2 t2 trs →
      c2 = c ∧ trs.map StepTrace.file = fs ∧
        ∀ k (hk : k < trs.length),
          (trs.get ⟨k, hk⟩).savedPending = fs.drop (k + 1) ∧
          (trs.get ⟨k, hk⟩).savedContext = c ∧
          (trs.get ⟨k, hk⟩).contextUsed = c ∧
          (trs.get ⟨k, hk⟩).progressPct = ((idx + k) * 100) / total_files := by
  intro fs
  induction fs with
  | nil =>
    intro idx c a t c2 p2 a2 t2 trs h
    simp only [batchLoop, BatchResult.finished.injEq] at h
    obtain ⟨h1, h2, h3, h4, h5⟩ := h
    subst h1
    subst h5
    refine ⟨rfl, by simp, ?_⟩
    intro k hk
    simp at hk
  | cons f rest ih =>
    intro idx c a t c2 p2 a2 t2 trs h
    simp only [batchLoop] at h
    cases hr : analysisRetryLoop jsonLoads f research (oracle idx) a t with
    | exited code => simp [hr] at h
    | crashed => simp [hr] at h
    | diverges => simp [hr] at h
    | done nc a3 t3 =>
      simp only [hr] at h
      rw [List.erase_cons_head] at h
      cases hrec : batchLoop jsonLoads oracle research total_files rest (idx + 1)
          rest c a3 t3 with
      | exited code => simp [hrec] at h
      | crashed => simp [hrec] at h
      | diverges => simp [hrec] at h
      | finished c4 p4 a4 t4 trs4 =>
        simp only [hrec, BatchResult.finished.injEq] at h
        obtain ⟨h1, h2, h3, h4, h5⟩ := h
        obtain ⟨ic, imap, ik⟩ := ih (idx + 1) c a3 t3 c4 p4 a4 t4 trs4 hrec
        subst h1
        subst h2
        subst h3
        subst h4
        subst h5
        refine ⟨ic, ?_, ?_⟩
        · simpa using imap
        · intro k hk
          cases k with
          | zero =>
            exact ⟨by simp, rfl, rfl, by simp⟩
          | succ k =>
            have hk' : k < trs4.length := by
              simpa using hk
            obtain ⟨s1, s2, s3, s4⟩ := ik k hk'
            have e : idx + 1 + k = idx + (k + 1) := by omega
            refine ⟨?_, ?_, ?_, ?_⟩ <;>
              simp only [List.get_cons_succ]
            · rw [s1]
              rfl
            · exact s2
            · exact s3
            · rw [s4, e]

/-- Each step trace of a completed batch run prints the ETA exactly when at
least 4 per-call durations have accumulated, and the printed value is the
formatted product of the mean duration and the remaining file count. -/
theorem batchLoop_eta_inv (jsonLoads : String → Option JsonValue)
    (oracle : Nat → List (ServiceResponse × ℚ)) (research : Option String)
    (total_files : Nat) :
    ∀ (fs : List String) (idx : Nat) (pending : List String) (c : List Int)
      (a : List AnalysisRecord) (t : List ℚ) (c2 : List Int) (p2 : List String)
      (a2 : List AnalysisRecord) (t2 : List ℚ) (trs : List StepTrace),
      batchLoop jsonLoads oracle research total_files fs idx pending c a t =
        BatchResult.finished c2 p2 a2 t2 trs →
      ∀ tr ∈ trs,
        (tr.etaPrinted = none ↔ tr.samples < 4) ∧
        (4 ≤ tr.samples → tr.etaPrinted =
          some (format_time
            ((tr.sumDurations / (tr.samples : ℚ)) * (tr.remaining : ℚ)))) := by
  intro fs
  induction fs with
  | nil =>
    intro idx pending c a t c2 p2 a2 t2 trs h
    simp only [batchLoop, BatchResult.finished.injEq] at h
    obtain ⟨-, -, -, -, h5⟩ := h
    subst h5
    intro tr htr
    simp at htr
  | cons f rest ih =>
    intro idx pending c a t c2 p2 a2 t2 trs h
    simp only [batchLoop] at h
    cases hr : analysisRetryLoop jsonLoads f research (oracle idx) a t with
    | exited code => simp [hr] at h
    | crashed => simp [hr] at h
    | diverges => simp [hr] at h
    | done nc a3 t3 =>
      simp only [hr] at h
      cases hrec : batchLoop jsonLoads oracle research total_files rest (idx + 1)
          (pending.erase f) c a3 t3 with
      | exited code => simp [hrec] at h
      | crashed => simp [hrec] at h
      | diverges => simp [hrec] at h
      | finished c4 p4 a4 t4 trs4 =>
        simp only [hrec, BatchResult.finished.injEq] at h
        obtain ⟨-, -, -, -, h5⟩ := h
        subst h5
        intro tr htr
        rcases List.mem_cons.mp htr with heq | hmem
        · subst heq
          constructor
          · by_cases h4 : 4 ≤ t3.length <;> simp [h4] <;> omega
          · intro h4
            have h4l : 4 ≤ t3.length := h4
            simp only [StepTrace.etaPrinted, StepTrace.sumDurations,
              StepTrace.samples, StepTrace.remaining]
            rw [if_pos h4l]
        · exact ih (idx + 1) (pending.erase f) c a3 t3 c4 p4 a4 t4 trs4 hrec tr hmem

/-- Run of the batch over two files from an empty initial context, where the
service returns context `[1]` for the first file and `[2]` for the second. -/
def c1run : BatchResult :=
  build_context_from_directory jl0 oracle1 none
    { pending_files := ["a.py", "b.py"], context := [], model := "m" }

/-- C1: the claim says the context threaded into the next step (and the one
persisted by `save_state`) equals the `nextContext` returned by the most
recent successful service call.  The code never assigns `result` back to
`context` (Bistr.py lines 170-174), so on this concrete run the service
returns contexts `[1]` and then `[2]`, yet both steps pass and save the stale
initial context `[]`, and the loop returns `[]`. -/
theorem c1_context_never_advances :
    c1run.traces.map StepTrace.contextFromService = [[1], [2]] ∧
    c1run.traces.map StepTrace.contextUsed = [[], []] ∧
    c1run.traces.map StepTrace.savedContext = [[], []] ∧
    c1run.finalContext = [] ∧
    ([1] : List Int) ≠ [] := by
  refine ⟨by decide, by decide, by decide, by decide, by decide⟩

/-- C2: when `load_save_state` finds no entry for the target directory, the
`while True` loop of `sourceCodeAnalysis` (Bistr.py line 209) has no
reachable `break`, so the run hangs in the prompt loop instead of proceeding
with a fresh start; it never reaches the batch phase, whatever the user
types and whatever the service would answer. -/
theorem c2_missing_state_hangs (jsonLoads : String → Option JsonValue)
    (oracle : Nat → List (ServiceResponse × ℚ)) (abs_directory : String)
    (inputs freshFiles : List String) (model : String)
    (research : Option String) :
    sourceCodeAnalysis jsonLoads oracle none abs_directory inputs freshFiles
      model research = ProgramOutcome.promptHang := rfl

/-- Witness for C2 at a concrete run: a missing state file hangs the run. -/
theorem c2_witness :
    sourceCodeAnalysis jl0 oracle1 none "/dir" ["y", "n", ""] ["g.py"] "m" none =
      ProgramOutcome.promptHang :=
  c2_missing_state_hangs jl0 oracle1 "/dir" ["y", "n", ""] ["g.py"] "m" none

/-- C3: resuming with the explicit input `"y"` under a mismatched model is
fatal before any service call, but the empty-input default-resume branch
(Bistr.py line 224) breaks out of the loop WITHOUT the model check: with
saved model `"a"` and requested model `"b"`, the program proceeds into the
batch and the service is called (witness the recorded call duration). -/
theorem c3_empty_input_resume_skips_model_check :
    resumeDecision
        (some { pending_files := ["f.py"], context := [], model := "a" })
        ["y"] ["g.py"] "b" = DecisionOutcome.fatalModelMismatch "a" "b" ∧
    resumeDecision
        (some { pending_files := ["f.py"], context := [], model := "a" })
        [""] ["g.py"] "b" =
      DecisionOutcome.proceed
        { pending_files := ["f.py"], context := [], model := "a" } true ∧
    sourceCodeAnalysis jl0 oracle1
        (some [("/dir", { pending_files := ["f.py"], context := [], model := "a" })])
        "/dir" [""] ["g.py"] "b" none =
      ProgramOutcome.ranBatch true
        { pending_files := ["f.py"], context := [], model := "a" }
        (build_context_from_directory jl0 oracle1 none
          { pending_files := ["f.py"], context := [], model := "a" }) ∧
    (build_context_from_directory jl0 oracle1 none
        { pending_files := ["f.py"], context := [], model := "a" }).isFinished =
      true ∧
    (build_context_from_directory jl0 oracle1 none
        { pending_files := ["f.py"], context := [], model := "a" }).traces.map
      StepTrace.file = ["f.py"] := by
  refine ⟨by decide, by decide, rfl, by decide, by decide⟩

/-- C4 counterexample: in non-structured mode (`research = none`) a
successful call (status 200) whose text does not parse as JSON does NOT
complete the file's step; the loop calls the service a second time for the
same file (two durations recorded) and the step completes only with the
second call's context. -/
theorem c4_counterexample :
    askOllama { status := 200, text := "text", context := [3] } =
      Except.ok { text := "text", context := [3] } ∧
    jl0 "text" = none ∧
    analysisRetryLoop jl0 "f.py" none
        [({ status := 200, text := "text", context := [3] }, 1),
         ({ status := 200, text := "ok", context := [7] }, 1)] [] [] =
      RetryOutcome.done [7] [{ file := "f.py", relevance := 1, reason := "r" }]
        [1, 1] := by
  refine ⟨rfl, rfl, by decide⟩

/-- C4 amended: in both modes (`research` arbitrary, so in non-structured
mode too) a successful call makes `analyze_file_with_context` return `None`
— and so be re-called for the same file — exactly when its text fails to
parse as JSON; a successful call alone does not suffice. -/
theorem c4_parse_required_in_both_modes (jsonLoads : String → Option JsonValue)
    (file_path : String) (research : Option String) (resp : ServiceResponse)
    (duration : ℚ) (analyzed : List AnalysisRecord) (times : List ℚ)
    (hs : resp.status = 200) :
    (analyze_file_with_context jsonLoads file_path research resp duration
        analyzed times).1 = AnalyzeOutcome.retry ↔ jsonLoads resp.text = none := by
  cases hj : jsonLoads resp.text with
  | none => simp [analyze_file_with_context, askOllama, hs, hj]
  | some v => cases v <;> simp [analyze_file_with_context, askOllama, hs, hj]

/-- Witness for the C4 amended theorem at a concrete successful call whose
text does not parse. -/
theorem c4_witness :
    (analyze_file_with_context jl0 "f.py" none
        { status := 200, text := "text", context := [3] } 1 [] []).1 =
      AnalyzeOutcome.retry :=
  (c4_parse_required_in_both_modes jl0 "f.py" none
    { status := 200, text := "text", context := [3] } 1 [] [] rfl).mpr rfl

/-- Run of the batch over three files, one successful call each. -/
def c5run : BatchResult :=
  build_context_from_directory jl0 oracle1 none
    { pending_files := ["a.py", "b.py", "c.py"], context := [], model := "m" }

/-- C5 counterexample: with 3 files the second step reports 66, but
`round(completedCount / totalAtBatchStart × 100)` is 67 counting the current
file as completed (and 33 not counting it); the code truncates
`int((idx / total_files) * 100)` instead of rounding. -/
theorem c5_counterexample :
    c5run.traces.map StepTrace.progressPct = [33, 66, 100] ∧
    round ((2 : ℚ) / 3 * 100) = 67 ∧
    round ((1 : ℚ) / 3 * 100) = 33 ∧
    (66 : Nat) ≠ 67 ∧ (66 : Nat) ≠ 33 := by
  refine ⟨by decide, ?_, ?_, by decide, by decide⟩
  · rw [round_eq]
    norm_num
  · rw [round_eq]
    norm_num

/-- C5 amended: the percentage reported by the step that analyzes the `k`-th
file (0-based) of the batch equals `(k + 1) * 100 / total` with truncating
(not rounding) division, where `k + 1` is the 1-based index of the file
being analyzed and `total` is the pending-list length fixed at batch
entry. -/
theorem c5_progress_truncates (jsonLoads : String → Option JsonValue)
    (oracle : Nat → List (ServiceResponse × ℚ)) (research : Option String)
    (state : SavedState) (k : Nat)
    (hk : k < (build_context_from_directory jsonLoads oracle research
      state).traces.length) :
    ((build_context_from_directory jsonLoads oracle research state).traces.map
        StepTrace.progressPct).get? k =
      some (((k + 1) * 100) / state.pending_files.length) := by
  cases hres : build_context_from_directory jsonLoads oracle research state with
  | exited code =>
    rw [hres] at hk
    simp [BatchResult.traces] at hk
  | crashed =>
    rw [hres] at hk
    simp [BatchResult.traces] at hk
  | diverges =>
    rw [hres] at hk
    simp [BatchResult.traces] at hk
  | finished c2 p2 a2 t2 trs =>
    obtain ⟨-, -, hks⟩ := batchLoop_run_invariants jsonLoads oracle research
      state.pending_files.length state.pending_files 1 state.context [] []
      c2 p2 a2 t2 trs hres
    rw [hres] at hk
    simp only [BatchResult.traces] at hk ⊢
    obtain ⟨-, -, -, s4⟩ := hks k hk
    rw [List.get?_map, List.get?_eq_get hk]
    simp only [Option.map_some']
    rw [s4, Nat.add_comm 1 k]

/-- Witness for the C5 amended theorem: the second step of the three-file run
reports `(2 * 100) / 3 = 66`. -/
theorem c5_witness :
    ((build_context_from_directory jl0 oracle1 none
        { pending_files := ["a.py", "b.py", "c.py"], context := [],
          model := "m" }).traces.map StepTrace.progressPct).get? 1 =
      some (((1 + 1) * 100) / 3) :=
  c5_progress_truncates jl0 oracle1 none
    { pending_files := ["a.py", "b.py", "c.py"], context := [], model := "m" }
    1 (by decide)

/-- C6: `save_state` reads the full stored map, overwrites only the entry for
the target directory, and writes the merged map back: every other
directory's entry is looked up unchanged afterwards, and the target's entry
is the new state. -/
theorem c6_save_preserves_other_entries
    (existingFile : Option (List (String × SavedState))) (A B : String)
    (pending_files : List String) (context : List Int) (model : String)
    (hne : B ≠ A) :
    List.lookup B (save_state existingFile A pending_files context model) =
      List.lookup B (existingFile.getD []) ∧
    List.lookup A (save_state existingFile A pending_files context model) =
      some { pending_files := pending_files, context := context, model := model } :=
  ⟨lookup_dictInsert_ne _ _ _ _ hne, lookup_dictInsert_self _ _ _⟩

/-- Witness for C6: saving under key `"A"` leaves the pre-existing entry for
`"B"` untouched and installs the new entry for `"A"`. -/
theorem c6_witness :
    List.lookup "B"
        (save_state
          (some [("B", { pending_files := ["x"], context := [5], model := "mb" })])
          "A" ["y"] [9] "ma") =
      some { pending_files := ["x"], context := [5], model := "mb" } ∧
    List.lookup "A"
        (save_state
          (some [("B", { pending_files := ["x"], context := [5], model := "mb" })])
          "A" ["y"] [9] "ma") =
      some { pending_files := ["y"], context := [9], model := "ma" } :=
  ⟨((c6_save_preserves_other_entries
      (some [("B", { pending_files := ["x"], context := [5], model := "mb" })])
      "A" "B" ["y"] [9] "ma" (by decide)).1).trans (by decide),
   (c6_save_preserves_other_entries
      (some [("B", { pending_files := ["x"], context := [5], model := "mb" })])
      "A" "B" ["y"] [9] "ma" (by decide)).2⟩

/-- C7: after the `k`-th successful step (0-based) the saved pending list is
the snapshot with its first `k + 1` files dropped — so it has shrunk by
exactly one file per step, its length is the original length minus `k + 1`,
and its order is a sublist of the original; on a finished run the analyzed
files are exactly the snapshot in order, hence distinct whenever the
snapshot is. -/
theorem c7_pending_shrinks_by_one_per_step (jsonLoads : String → Option JsonValue)
    (oracle : Nat → List (ServiceResponse × ℚ)) (research : Option String)
    (state : SavedState) :
    (∀ k, k < (build_context_from_directory jsonLoads oracle research
          state).traces.length →
      (((build_context_from_directory jsonLoads oracle research state).traces.map
          StepTrace.savedPending).get? k =
        some (state.pending_files.drop (k + 1)) ∧
       (state.pending_files.drop (k + 1)).length + (k + 1) =
         state.pending_files.length ∧
       (state.pending_files.drop (k + 1)).Sublist state.pending_files)) ∧
    ((build_context_from_directory jsonLoads oracle research state).isFinished =
        true →
      ((build_context_from_directory jsonLoads oracle research state).traces.map
          StepTrace.file = state.pending_files ∧
       (state.pending_files.Nodup →
        ((build_context_from_directory jsonLoads oracle research state).traces.map
            StepTrace.file).Nodup))) := by
  cases hres : build_context_from_directory jsonLoads oracle research state with
  | exited code =>
    constructor
    · intro k hk
      simp [BatchResult.traces] at hk
    · intro hfin
      simp [BatchResult.isFinished] at hfin
  | crashed =>
    constructor
    · intro k hk
      simp [BatchResult.traces] at hk
    · intro hfin
      simp [BatchResult.isFinished] at hfin
  | diverges =>
    constructor
    · intro k hk
      simp [BatchResult.traces] at hk
    · intro hfin
      simp [BatchResult.isFinished] at hfin
  | finished c2 p2 a2 t2 trs =>
    obtain ⟨-, hmap, hks⟩ := batchLoop_run_invariants jsonLoads oracle research
      state.pending_files.length state.pending_files 1 state.context [] []
      c2 p2 a2 t2 trs hres
    have hlen : trs.length = state.pending_files.length := by
      rw [← hmap]
      simp
    constructor
    · intro k hk
      simp only [BatchResult.traces] at hk ⊢
      obtain ⟨s1, -, -, -⟩ := hks k hk
      refine ⟨?_, ?_, List.drop_sublist _ _⟩
      · rw [List.get?_map, List.get?_eq_get hk]
        simp only [Option.map_some']
        rw [s1]
      · rw [List.length_drop]
        omega
    · intro _
      refine ⟨?_, ?_⟩
      · simp only [BatchResult.traces]
        exact hmap
      · intro hnd
        simp only [BatchResult.traces]
        rw [hmap]
        exact hnd

/-- Witness for C7 on the three-file run: after the first step the pending
list is the last two files, length 2 = 3 - 1, in the original order; the
finished run analyzed exactly the three files, without duplicates. -/
theorem c7_witness :
    (((build_context_from_directory jl0 oracle1 none
        { pending_files := ["a.py", "b.py", "c.py"], context := [],
          model := "m" }).traces.map StepTrace.savedPending).get? 0 =
      some ["b.py", "c.py"] ∧
     (2 : Nat) + 1 = 3 ∧
     (["b.py", "c.py"] : List String).Sublist ["a.py", "b.py", "c.py"]) ∧
    ((build_context_from_directory jl0 oracle1 none
        { pending_files := ["a.py", "b.py", "c.py"], context := [],
          model := "m" }).traces.map StepTrace.file =
      ["a.py", "b.py", "c.py"]) ∧
    ((build_context_from_directory jl0 oracle1 none
        { pending_files := ["a.py", "b.py", "c.py"], context := [],
          model := "m" }).traces.map StepTrace.file).Nodup :=
  ⟨(c7_pending_shrinks_by_one_per_step jl0 oracle1 none
      { pending_files := ["a.py", "b.py", "c.py"], context := [],
        model := "m" }).1 0 (by decide),
   ((c7_pending_shrinks_by_one_per_step jl0 oracle1 none
      { pending_files := ["a.py", "b.py", "c.py"], context := [],
        model := "m" }).2 (by decide)).1,
   ((c7_pending_shrinks_by_one_per_step jl0 oracle1 none
      { pending_files := ["a.py", "b.py", "c.py"], context := [],
        model := "m" }).2 (by decide)).2 (by decide)⟩

/-- C8: for every batch step, the ETA line reads pending exactly while fewer
than 4 per-call durations have been recorded; once at least 4 exist the
printed value is `remaining × (sum(durations)/count(durations))` rendered by
`format_time`, which truncates to whole hours, minutes and seconds: 3661
seconds formats as `1h 1m 1s`, and so does 3661.9 (truncation, not
rounding). -/
theorem c8_eta_warmup_mean_and_truncation :
    (∀ (jsonLoads : String → Option JsonValue)
      (oracle : Nat → List (ServiceResponse × ℚ)) (research : Option String)
      (state : SavedState) (tr : StepTrace),
      tr ∈ (build_context_from_directory jsonLoads oracle research state).traces →
      ((tr.etaPrinted = none ↔ tr.samples < 4) ∧
       (4 ≤ tr.samples → tr.etaPrinted =
         some (format_time
           ((tr.remaining : ℚ) * (tr.sumDurations / (tr.samples : ℚ))))))) ∧
    format_time 3661 = "1h 1m 1s" ∧
    format_time (36619 / 10) = "1h 1m 1s" := by
  refine ⟨?_, ?_, ?_⟩
  · intro jsonLoads oracle research state tr htr
    cases hres : build_context_from_directory jsonLoads oracle research state with
    | exited code =>
      rw [hres] at htr
      simp [BatchResult.traces] at htr
    | crashed =>
      rw [hres] at htr
      simp [BatchResult.traces] at htr
    | diverges =>
      rw [hres] at htr
      simp [BatchResult.traces] at htr
    | finished c2 p2 a2 t2 trs =>
      rw [hres] at htr
      simp only [BatchResult.traces] at htr
      obtain ⟨h1, h2⟩ := batchLoop_eta_inv jsonLoads oracle research
        state.pending_files.length state.pending_files 1 state.pending_files
        state.context [] [] c2 p2 a2 t2 trs hres tr htr
      exact ⟨h1, fun h4 => (h2 h4).trans (by rw [mul_comm])⟩
  · unfold format_time
    norm_num
    rfl
  · unfold format_time
    norm_num
    rfl

/-- Run with a single file whose calls fail to parse three times before the
fourth call succeeds, so 4 durations exist at the step's ETA print. -/
def c8run : BatchResult :=
  build_context_from_directory jl0 oracle4 none
    { pending_files := ["a.py"], context := [], model := "m" }

/-- Witness for C8 at a step with 4 recorded durations: the printed estimate
is the formatted product of remaining files and mean duration. -/
theorem c8_witness :
    (c8run.traces.get ⟨0, by decide⟩).etaPrinted =
      some (format_time
        (((c8run.traces.get ⟨0, by decide⟩).remaining : ℚ) *
          ((c8run.traces.get ⟨0, by decide⟩).sumDurations /
            ((c8run.traces.get ⟨0, by decide⟩).samples : ℚ)))) :=
  (c8_eta_warmup_mean_and_truncation.1 jl0 oracle4 none
    { pending_files := ["a.py"], context := [], model := "m" }
    (c8run.traces.get ⟨0, by decide⟩)
    (List.get_mem _ _ _)).2 (by decide)

/-- C9: `askOllama` turns any non-success transport status into an immediate
process exit with a diagnostic — no retry, no backoff, the outcome being a
function of the single response — and only a success status yields the
text/context result. -/
theorem c9_non_success_status_is_fatal (resp : ServiceResponse) :
    (resp.status ≠ 200 → askOllama resp = Except.error 1) ∧
    (resp.status = 200 → askOllama resp =
      Except.ok { text := resp.text, context := resp.context }) := by
  constructor
  · intro h
    simp [askOllama, h]
  · intro h
    simp [askOllama, h]

/-- Witness for C9 at a failing status (500) and a succeeding one (200). -/
theorem c9_witness :
    askOllama { status := 500, text := "oops", context := [] } =
      Except.error 1 ∧
    askOllama { status := 200, text := "t", context := [3] } =
      Except.ok { text := "t", context := [3] } :=
  ⟨(c9_non_success_status_is_fatal
      { status := 500, text := "oops", context := [] }).1 (by decide),
   (c9_non_success_status_is_fatal
      { status := 200, text := "t", context := [3] }).2 rfl⟩

/-- C10 counterexample: the text `"num"` parses as JSON — as a non-object
value — yet no record is appended and the step is not retried: the `.get`
attribute access sits outside the `try`, so it raises an uncaught
`AttributeError` and the process crashes. -/
theorem c10_counterexample :
    (jl0 "num").isSome = true ∧
    analyze_file_with_context jl0 "f.py" none
        { status := 200, text := "num", context := [] } 1 [] [] =
      (AnalyzeOutcome.crashed, [], [1]) := by
  refine ⟨rfl, by decide⟩

/-- C10 amended: for every response whose text parses as a JSON OBJECT, a
record is appended even when the required fields are missing — an absent
relevance defaults to 0 and an absent reason to "No reason provided" — with
no check that the relevance lies in 0-100 (the field value is arbitrary
here); a JSON parse failure appends nothing and yields a retry of the same
file; but a text that parses as JSON without being an object crashes the
process instead of appending a record. -/
theorem c10_object_defaults_no_range_check (jsonLoads : String → Option JsonValue)
    (file_path : String) (research : Option String) (resp : ServiceResponse)
    (duration : ℚ) (analyzed : List AnalysisRecord) (times : List ℚ)
    (hs : resp.status = 200) :
    (jsonLoads resp.text = none →
      analyze_file_with_context jsonLoads file_path research resp duration
          analyzed times = (AnalyzeOutcome.retry, analyzed, times ++ [duration])) ∧
    (∀ fields, jsonLoads resp.text = some (JsonValue.obj fields) →
      analyze_file_with_context jsonLoads file_path research resp duration
          analyzed times =
        (AnalyzeOutcome.advanced resp.context,
         analyzed ++
           [{ file := file_path,
              relevance := fields.relevance.getD 0,
              reason := fields.reason.getD "No reason provided" }],
         times ++ [duration])) := by
  constructor
  · intro hj
    simp [analyze_file_with_context, askOllama, hs, hj]
  · intro fields hj
    simp [analyze_file_with_context, askOllama, hs, hj]

/-- Witness for the C10 amended theorem: a parsed object with relevance 999
(out of the 0-100 range) and no reason key still yields a record, with the
reason defaulted. -/
theorem c10_witness :
    analyze_file_with_context jl0 "f.py" none
        { status := 200, text := "big", context := [7] } 2 [] [] =
      (AnalyzeOutcome.advanced [7],
       [{ file := "f.py", relevance := 999, reason := "No reason provided" }],
       [2]) :=
  (c10_object_defaults_no_range_check jl0 "f.py" none
    { status := 200, text := "big", context := [7] } 2 [] [] rfl).2
    { relevance := some 999, reason := none } rfl

end Bistr
